import Mathlib

/-!
Verification development for the YoutubeDownloader repository
(src/main.py, src/gui.py), as a shallow embedding in Lean 4.

The orchestration core (`YtDlpDownloader.download_video`, its
`progress_hook`, `CustomLogger`, and the GUI entry point
`YtDlpGui.start_download`) is embedded as pure functions producing a
trace of events.  External effects (the yt-dlp download call, the two
subprocess invocations, file removal) are driven by an explicit
environment `Env` describing what the external world does; the trace
records every notification delivered through the callback bag
(log_message / update_progress / on_complete / on_error) and every
side-effecting action (sleep, subprocess run, file removal), in
program order.
-/

namespace YoutubeDownloader

/-- Python `str.strip` / `bytes.strip` whitespace set. -/
def isPyWhitespace (c : Char) : Bool :=
  c == ' ' || c == '\t' || c == '\n' || c == '\r' || c == '\x0b' || c == '\x0c'

/-- Python `s.strip()` on text (also `bytes.strip` for ASCII output). -/
def pyStrip (s : String) : String :=
  String.mk (((s.toList.dropWhile isPyWhitespace).reverse.dropWhile isPyWhitespace).reverse)

/-- Python `s.startswith(p)`. -/
def pyStartsWith (s p : String) : Bool :=
  s.toList.take p.toList.length == p.toList

/-- Python `s.endswith(p)`. -/
def pyEndsWith (s p : String) : Bool :=
  s.toList.reverse.take p.toList.length == p.toList.reverse

/-- Python `s.lower()` (the strings it is applied to here are ASCII
file extensions). -/
def pyLower (s : String) : String :=
  String.mk (s.toList.map Char.toLower)

/-- Index of the last occurrence of `c` in `cs`, as Python `str.rfind`:
`-1` when absent. -/
def rfindIdx (cs : List Char) (c : Char) : Int :=
  match ((cs.enum.filter (fun p => p.2 == c)).map (fun p => p.1)).getLast? with
  | some i => (i : Int)
  | none => -1

/-- Python `os.path.basename` on posix: `p[p.rfind(sep)+1:]`. -/
def pyBasename (p : String) : String :=
  String.mk (p.toList.drop ((rfindIdx p.toList '/') + 1).toNat)

/-- Python `os.path.splitext` on posix (genericpath._splitext with
`sep` the slash, no altsep): split at the last dot, provided some earlier
character of the basename is not a dot (leading dots of the basename
do not start an extension). -/
def pySplitext (p : String) : String × String :=
  let cs := p.toList
  let sepIndex := rfindIdx cs '/'
  let dotIndex := rfindIdx cs '.'
  if sepIndex < dotIndex then
    let nameStart := (sepIndex + 1).toNat
    let d := dotIndex.toNat
    if (List.range (d - nameStart)).any (fun k => cs.get? (nameStart + k) != some '.') then
      (String.mk (cs.take d), String.mk (cs.drop d))
    else
      (p, "")
  else
    (p, "")

/-- Python `os.path.join` on posix, two arguments. -/
def pyPathJoin (a b : String) : String :=
  if pyStartsWith b "/" then b
  else if a == "" || pyEndsWith a "/" then a ++ b
  else a ++ "/" ++ b

/-- Python truthiness of `self.downloaded_file` (None or a str). -/
def pyTruthy : Option String → Bool
  | none => false
  | some s => !(s == "")

/-- Payload of the `downloading` progress notification
(main.py lines 153-157). -/
structure ProgressData where
  percent : String
  speed : String
  eta : String
deriving Repr, DecidableEq

/-- One observable event of the worker.  `log`, `progress`, `complete`
and `error` are the four callback-bag notifications; `sleep`,
`runProc` and `removeFile` are the side-effecting actions of the
conditional transcode step. -/
inductive Ev where
  | log (msg : String)
  | progress (status : String) (data : Option ProgressData)
  | complete
  | error (msg : String)
  | sleep (secs : Nat)
  | runProc (cmd : List String)
  | removeFile (path : String)
deriving Repr, DecidableEq

/-- A yt-dlp progress payload: a Python dict.  The fields the code
reads (`status`, `_percent_str`, `_speed_str`, `_eta_str`,
`filename`) are all text, so string values suffice. -/
def Payload : Type := List (String × String)

def Payload.lookup (d : Payload) (k : String) : Option String :=
  List.lookup k d

/-- Python `d.get(k, default)`. -/
def Payload.getD (d : Payload) (k default : String) : String :=
  (Payload.lookup d k).getD default

/-- Embedding of `YtDlpDownloader.progress_hook` (main.py lines 144-166) as a pure
function of the current `self.downloaded_file` and the payload.
Returns the emitted events and the new `downloaded_file`, or the
description of the exception it raises.  The subscript of `d` at the
`status` key raises `KeyError` when the payload has none; that subscript is
outside the inner `try`, so it propagates out of the hook.  Inside the
`downloading` branch only `dict.get` with defaults is used, which
cannot raise, so the inner `except: pass` is never taken. -/
def progress_hook (df : Option String) (d : Payload) :
    Except String (List Ev × Option String) :=
  match Payload.lookup d "status" with
  | none => Except.error "KeyError: status"
  | some st =>
    if st == "downloading" then
      let percent := Payload.getD d "_percent_str" "N/A"
      let speed := Payload.getD d "_speed_str" "N/A"
      let eta := Payload.getD d "_eta_str" "N/A"
      Except.ok ([Ev.progress "downloading" (some ⟨percent, speed, eta⟩)], df)
    else if st == "finished" then
      let filename := Payload.getD d "filename" "Unknown"
      Except.ok ([Ev.log ("Download finished: " ++ pyBasename filename),
                  Ev.progress "processing" none], some filename)
    else
      Except.ok ([], df)

/-- The sequence of hook invocations performed inside `ydl.download`:
payloads are delivered in order; a hook exception aborts the download
call (yt-dlp propagates it), so later payloads are not delivered.
Returns (events emitted, exception raised by a hook if any, final
`downloaded_file`). -/
def runHooks (df0 : Option String) (ps : List Payload) :
    List Ev × Option String × Option String :=
  match ps with
  | [] => ([], none, df0)
  | d :: rest =>
    match progress_hook df0 d with
    | Except.error e => ([], some e, df0)
    | Except.ok (evs, df1) =>
      let r := runHooks df1 rest
      (evs ++ r.1, r.2.1, r.2.2)

/-- One post-processor entry of the yt-dlp option dict, as its
key/value pairs. -/
def PPStep : Type := List (String × String)

/-- The audio-extraction post-processor (main.py lines 46-50). -/
def audioExtractPP : PPStep :=
  [("key", "FFmpegExtractAudio"), ("preferredcodec", "mp3"),
   ("preferredquality", "192")]

/-- The thumbnail-conversion post-processor (main.py line 71). -/
def thumbnailConvertPP : PPStep :=
  [("key", "FFmpegThumbnailsConvertor"), ("format", "jpg")]

/-- The data fields of the yt-dlp option dict built by
`download_video` (main.py lines 35-75).  An absent `format` key is
`none`; absent boolean keys are `false`; an absent `postprocessors`
key is the empty list (the code reads it with a dict get defaulting to `[]`). -/
structure YdlOpts where
  outtmpl : String
  quiet : Bool
  format : Option String
  postprocessors : List PPStep
  writesubtitles : Bool
  writeautomaticsub : Bool
  writethumbnail : Bool

/-- Option building of `download_video` (main.py lines 35-75):
the base dict, then format-specific options, then subtitle options,
then the thumbnail option which appends to the existing
post-processor list. -/
def buildYdlOpts (output_dir selected_format : String)
    (with_subtitles with_thumbnail : Bool) : YdlOpts :=
  let base : YdlOpts :=
    { outtmpl := pyPathJoin output_dir "%(title)s.%(ext)s",
      quiet := true, format := none, postprocessors := [],
      writesubtitles := false, writeautomaticsub := false,
      writethumbnail := false }
  let o1 :=
    if selected_format == "mp3" then
      { base with format := some "bestaudio/best",
                  postprocessors := [audioExtractPP] }
    else if selected_format == "mp4" then
      { base with
          format := some "bestvideo[ext=mp4]+bestaudio[ext=m4a]/best[ext=mp4]/best" }
    else if selected_format == "webm" then
      { base with
          format := some "bestvideo[ext=webm]+bestaudio[ext=webm]/best[ext=webm]/best" }
    else base
  let o2 :=
    if with_subtitles then
      { o1 with writesubtitles := true, writeautomaticsub := true }
    else o1
  if with_thumbnail then
    { o2 with writethumbnail := true,
              postprocessors := o2.postprocessors ++ [thumbnailConvertPP] }
  else o2

/-- Outcome of `subprocess.run(cmd, check=True, ...)` for the ffmpeg
conversion: normal exit, a `subprocess.SubprocessError` (e.g.
`CalledProcessError` on non-zero exit, caught by the inner handler at
main.py line 126), or an `OSError` such as `FileNotFoundError` when
the binary cannot be spawned (NOT a `SubprocessError`, so it escapes
the inner handler and reaches the outer `except Exception`). -/
inductive FfmpegResult where
  | ok
  | subprocErr (msg : String)
  | osErr (msg : String)
deriving Repr, DecidableEq

/-- What the external world does during one `download_video` run:
the progress payloads yt-dlp delivers to the hook, whether
`ydl.download` raises afterwards (its exception text), the result of
the `ffprobe` run (raise, or its stdout), and the result of the
`ffmpeg` run. -/
structure Env where
  payloads : List Payload
  dlRaise : Option String
  probeResult : Except String String
  ffmpegResult : FfmpegResult

/-- The ffprobe invocation of main.py lines 93-101. -/
def probeCmd (f : String) : List String :=
  ["ffprobe", "-v", "error", "-select_streams", "v:0",
   "-show_entries", "stream=codec_type", "-of", "csv=p=0", f]

/-- The ffmpeg invocation built when a video stream is present
(main.py lines 106-110). -/
def ffmpegVideoCmd (src dst : String) : List String :=
  ["ffmpeg", "-y", "-i", src, "-c:v", "libx264", "-preset", "ultrafast",
   "-c:a", "copy", dst]

/-- The ffmpeg invocation built when no video stream is present
(main.py lines 112-115). -/
def ffmpegAudioCmd (src dst : String) : List String :=
  ["ffmpeg", "-y", "-i", src, "-vn", "-c:a", "copy", dst]

/-- The conditional transcode block of `download_video`
(main.py lines 85-128), entered when
`selected_format == "best" and convert_to_mp4 and self.downloaded_file`.
`f` is the recorded `self.downloaded_file`.  On
`subprocess.SubprocessError` from the ffmpeg run the inner handler
reports the error and returns; an `OSError` from either subprocess
propagates to the outer handler, which reports `str(e)`. -/
def transcodeStep (f : String) (env : Env) : List Ev :=
  Ev.sleep 2 ::
  (if pyLower (pySplitext f).2 ≠ ".mp4" then
    let mp4_file := (pySplitext f).1 ++ ".mp4"
    Ev.runProc (probeCmd f) ::
    (match env.probeResult with
     | Except.error e => [Ev.error e]
     | Except.ok out =>
       let has_video := !(pyStrip out == "")
       let cmd := if has_video then ffmpegVideoCmd f mp4_file
                  else ffmpegAudioCmd f mp4_file
       Ev.runProc cmd ::
       (match env.ffmpegResult with
        | FfmpegResult.subprocErr e =>
          [Ev.error ("ffmpeg conversion failed: " ++ e)]
        | FfmpegResult.osErr e => [Ev.error e]
        | FfmpegResult.ok =>
          [Ev.removeFile f,
           Ev.log ("Converted to mp4: " ++ pyBasename mp4_file),
           Ev.complete]))
   else
    [Ev.complete])

/-- main.py lines 83-130: what runs after `ydl.download` returned
without raising.  `df` is `self.downloaded_file`; the Python guard
`self.downloaded_file` is its truthiness (None and the empty string
are falsy). -/
def postDownload (selected_format : String) (convert_to_mp4 : Bool)
    (env : Env) (df : Option String) : List Ev :=
  match df with
  | some f =>
    if selected_format == "best" && convert_to_mp4 && !(f == "") then
      transcodeStep f env
    else
      [Ev.complete]
  | none => [Ev.complete]

/-- Embedding of `YtDlpDownloader.download_video` (main.py lines 32-133) as a trace
of events.  The option dict it builds is `buildYdlOpts` below (the
`logger` and `progress_hooks` entries are the callback adapters
modelled separately).  `self.downloaded_file` starts as None (line
79); hook events happen inside the `ydl.download` call; a hook
exception or a downloader exception reaches the outer handler, which
notifies `on_error(str(e))`. -/
def download_video (url output_dir selected_format : String)
    (with_subtitles : Bool := false) (with_thumbnail : Bool := false)
    (convert_to_mp4 : Bool := false) (env : Env) : List Ev :=
  let _opts := buildYdlOpts output_dir selected_format with_subtitles with_thumbnail
  let r := runHooks none env.payloads
  Ev.log ("Starting download of " ++ url) ::
  r.1 ++
  (match r.2.1 with
   | some e => [Ev.error e]
   | none =>
     match env.dlRaise with
     | some e => [Ev.error e]
     | none => postDownload selected_format convert_to_mp4 env r.2.2)

/-- Embedding of `CustomLogger.info` (main.py lines 177-178): forward to
`log_message`. -/
def CustomLogger.info (msg : String) : List Ev := [Ev.log msg]

/-- Embedding of `CustomLogger.debug` (main.py lines 173-175): suppress lines
carrying the yt-dlp debug marker, treat the rest as info. -/
def CustomLogger.debug (msg : String) : List Ev :=
  if pyStartsWith msg "[debug] " then [] else CustomLogger.info msg

/-- Embedding of `CustomLogger.warning` (main.py lines 180-181). -/
def CustomLogger.warning (msg : String) : List Ev :=
  [Ev.log ("Warning: " ++ msg)]

/-- Embedding of `CustomLogger.error` (main.py lines 183-184). -/
def CustomLogger.error (msg : String) : List Ev :=
  [Ev.log ("Error: " ++ msg)]

/-- The argument tuple `YtDlpDownloader.start_download` passes to
`download_video` on the worker thread (main.py lines 135-142). -/
structure DownloadArgs where
  url : String
  output_dir : String
  selected_format : String
  with_subtitles : Bool
  with_thumbnail : Bool
  convert_to_mp4 : Bool
deriving Repr, DecidableEq

/-- Embedding of `YtDlpDownloader.start_download` (main.py line 135): forwards its
arguments unchanged; `convert_to_mp4` defaults to False. -/
def YtDlpDownloader.start_download (url output_dir selected_format : String)
    (with_subtitles : Bool := false) (with_thumbnail : Bool := false)
    (convert_to_mp4 : Bool := false) : DownloadArgs :=
  ⟨url, output_dir, selected_format, with_subtitles, with_thumbnail,
   convert_to_mp4⟩

/-- The GUI widget state read by `YtDlpGui.start_download`
(gui.py lines 191-215). -/
structure GuiState where
  urlText : String
  outputDirText : String
  formatChoice : String
  subtitlesChecked : Bool
  thumbnailChecked : Bool
deriving Repr, DecidableEq

/-- Embedding of `YtDlpGui.start_download` (gui.py lines 191-215): strips the URL,
refuses an empty one (message box, no download), otherwise calls
`YtDlpDownloader.start_download` with five positional arguments —
`convert_to_mp4` is never supplied. -/
def YtDlpGui.start_download (st : GuiState) : Option DownloadArgs :=
  let url := pyStrip st.urlText
  if url == "" then none
  else some (YtDlpDownloader.start_download url st.outputDirText st.formatChoice
               st.subtitlesChecked st.thumbnailChecked)

/-- Notification events: what the callback bag delivers to the GUI. -/
def isNotification : Ev → Bool
  | Ev.log _ => true
  | Ev.progress _ _ => true
  | Ev.complete => true
  | Ev.error _ => true
  | _ => false

/-- Terminal outcome notifications: Success (`on_complete`) or
Failure (`on_error`). -/
def isTerminal : Ev → Bool
  | Ev.complete => true
  | Ev.error _ => true
  | _ => false

/-- Events that can only originate in the conditional transcode step. -/
def isTranscodeEv : Ev → Bool
  | Ev.sleep _ => true
  | Ev.runProc _ => true
  | Ev.removeFile _ => true
  | _ => false

/-- Subprocess invocations. -/
def isRunProc : Ev → Bool
  | Ev.runProc _ => true
  | _ => false

/-- Events a progress hook can emit. -/
def isHookEv : Ev → Bool
  | Ev.log _ => true
  | Ev.progress _ _ => true
  | _ => false

/-- A `finished`-tagged progress notification. -/
def isFinishedProgress : Ev → Bool
  | Ev.progress s _ => s == "finished"
  | _ => false

end YoutubeDownloader

namespace YoutubeDownloader

/-! Classification of events. -/

/-- Events whose delivery removes a file from disk. -/
def isRemoveFile : Ev → Bool
  | Ev.removeFile _ => true
  | _ => false

/-- A trace that delivers exactly one terminal notification, as its
very last event. -/
def EndsTerminal (l : List Ev) : Prop :=
  ∃ pre t, l = pre ++ [t] ∧ isTerminal t = true ∧ ∀ e ∈ pre, isTerminal e = false

/-! Structural lemmas about the worker trace. -/

lemma endsTerminal_singleton {t : Ev} (h : isTerminal t = true) :
    EndsTerminal [t] :=
  ⟨[], t, rfl, h, by simp⟩

lemma endsTerminal_cons {e : Ev} {l : List Ev} (he : isTerminal e = false)
    (hl : EndsTerminal l) : EndsTerminal (e :: l) := by
  rcases hl with ⟨pre, t, rfl, h2, h3⟩
  refine ⟨e :: pre, t, rfl, h2, ?_⟩
  intro x hx
  rcases List.mem_cons.mp hx with h | h
  · subst h; exact he
  · exact h3 x h

lemma endsTerminal_append {l1 l2 : List Ev}
    (h1 : ∀ e ∈ l1, isTerminal e = false) (h2 : EndsTerminal l2) :
    EndsTerminal (l1 ++ l2) := by
  induction l1 with
  | nil => simpa using h2
  | cons e l ih =>
    exact endsTerminal_cons (h1 e (by simp))
      (ih (fun x hx => h1 x (by simp [hx])))

lemma hookEv_props {e : Ev} (h : isHookEv e = true) :
    isTerminal e = false ∧ isTranscodeEv e = false ∧ isRunProc e = false ∧
      isRemoveFile e = false := by
  cases e <;> simp_all [isHookEv, isTerminal, isTranscodeEv, isRunProc, isRemoveFile]

lemma progress_hook_hookEvs {df : Option String} {d : Payload} {evs : List Ev}
    {df2 : Option String} (h : progress_hook df d = Except.ok (evs, df2)) :
    ∀ e ∈ evs, isHookEv e = true := by
  unfold progress_hook at h
  rcases hst : Payload.lookup d "status" with _ | st
  · rw [hst] at h; simp at h
  · rw [hst] at h
    dsimp only at h
    split_ifs at h <;> simp only [Except.ok.injEq, Prod.mk.injEq] at h <;>
      rcases h with ⟨h1, h2⟩ <;> subst h1 <;> simp [isHookEv]

lemma runHooks_hookEvs (ps : List Payload) :
    ∀ df0 e, e ∈ (runHooks df0 ps).1 → isHookEv e = true := by
  induction ps with
  | nil => intro df0 e he; simp [runHooks] at he
  | cons d rest ih =>
    intro df0 e he
    unfold runHooks at he
    rcases hph : progress_hook df0 d with e1 | ⟨evs, df1⟩
    · rw [hph] at he; simp at he
    · rw [hph] at he
      simp only [List.mem_append] at he
      rcases he with h | h
      · exact progress_hook_hookEvs hph e h
      · exact ih df1 e h

lemma transcodeStep_endsTerminal (f : String) (env : Env) :
    EndsTerminal (transcodeStep f env) := by
  obtain ⟨ps, dlr, pr, fr⟩ := env
  unfold transcodeStep
  dsimp only
  refine endsTerminal_cons rfl ?_
  split
  · refine endsTerminal_cons rfl ?_
    cases pr with
    | error e => exact endsTerminal_singleton rfl
    | ok out =>
      refine endsTerminal_cons rfl ?_
      cases fr with
      | ok =>
        exact endsTerminal_cons rfl (endsTerminal_cons rfl (endsTerminal_singleton rfl))
      | subprocErr e => exact endsTerminal_singleton rfl
      | osErr e => exact endsTerminal_singleton rfl
  · exact endsTerminal_singleton rfl

lemma download_video_endsTerminal (url dir fmt : String)
    (subs thumb conv : Bool) (env : Env) :
    EndsTerminal (download_video url dir fmt subs thumb conv env) := by
  obtain ⟨ps, dlr, pr, fr⟩ := env
  unfold download_video
  dsimp only
  rcases hr : runHooks none ps with ⟨hevs, herr, hdf⟩
  dsimp only
  refine endsTerminal_cons rfl ?_
  refine endsTerminal_append (fun e he =>
    (hookEv_props (runHooks_hookEvs ps none e (by rw [hr]; exact he))).1) ?_
  cases herr with
  | some e => exact endsTerminal_singleton rfl
  | none =>
    cases dlr with
    | some e => exact endsTerminal_singleton rfl
    | none =>
      unfold postDownload
      cases hdf with
      | none => exact endsTerminal_singleton rfl
      | some f =>
        dsimp only
        split
        · exact transcodeStep_endsTerminal f ⟨ps, none, pr, fr⟩
        · exact endsTerminal_singleton rfl

/-- When the download call returned without raising and a truthy file
was recorded, the trace of a format-best, convert-requested run is the start
log, the hook events, then the transcode block. -/
lemma download_video_transcode_eq (url dir : String) (subs thumb : Bool)
    (env : Env) (f : String)
    (h1 : (runHooks none env.payloads).2.1 = none)
    (h2 : env.dlRaise = none)
    (h3 : (runHooks none env.payloads).2.2 = some f)
    (h4 : ¬f = "") :
    download_video url dir "best" subs thumb true env =
      Ev.log ("Starting download of " ++ url) ::
        (runHooks none env.payloads).1 ++ transcodeStep f env := by
  obtain ⟨ps, dlr, pr, fr⟩ := env
  dsimp only at h1 h2 h3 ⊢
  unfold download_video
  dsimp only
  rcases hr : runHooks none ps with ⟨hevs, herr, hdf⟩
  rw [hr] at h1 h3
  dsimp only at h1 h3
  subst h1
  subst h3
  subst h2
  dsimp only [postDownload]
  rw [if_pos (by simp [h4])]

lemma download_video_any_transcode (url dir fmt : String)
    (subs thumb conv : Bool) (env : Env) :
    (download_video url dir fmt subs thumb conv env).any isTranscodeEv = true ↔
      ((runHooks none env.payloads).2.1 = none ∧ env.dlRaise = none ∧
        fmt = "best" ∧ conv = true ∧
        pyTruthy (runHooks none env.payloads).2.2 = true) := by
  obtain ⟨ps, dlr, pr, fr⟩ := env
  dsimp only
  unfold download_video
  dsimp only
  rcases hr : runHooks none ps with ⟨hevs, herr, hdf⟩
  dsimp only
  have hh : hevs.any isTranscodeEv = false := by
    rw [List.any_eq_false]
    intro e he
    simp [(hookEv_props (runHooks_hookEvs ps none e (by rw [hr]; exact he))).2.1]
  simp only [List.any_cons, List.any_append, hh, isTranscodeEv, Bool.false_or,
    Bool.or_false]
  cases herr with
  | some e => simp [isTranscodeEv]
  | none =>
    cases dlr with
    | some e => simp [isTranscodeEv]
    | none =>
      unfold postDownload
      cases hdf with
      | none => simp [isTranscodeEv, pyTruthy]
      | some f =>
        dsimp only
        split
        case isTrue h =>
          simp only [Bool.and_eq_true, beq_iff_eq] at h
          obtain ⟨⟨hf, hc⟩, hb⟩ := h
          simp [transcodeStep, isTranscodeEv, pyTruthy, hf, hc, hb]
        case isFalse h =>
          simp only [Bool.and_eq_true, beq_iff_eq] at h
          simp only [List.any_cons, List.any_nil, isTranscodeEv, Bool.or_false,
            pyTruthy]
          constructor
          · intro hx; cases hx
          · rintro ⟨-, -, hf, hc, hb⟩
            exact (h ⟨⟨hf, hc⟩, hb⟩).elim

lemma download_video_skip_mp4 (url dir : String) (subs thumb : Bool)
    (env : Env) (f : String)
    (h1 : (runHooks none env.payloads).2.1 = none)
    (h2 : env.dlRaise = none)
    (h3 : (runHooks none env.payloads).2.2 = some f)
    (h4 : ¬f = "")
    (h5 : pyLower (pySplitext f).2 = ".mp4") :
    (download_video url dir "best" subs thumb true env).any isRunProc = false ∧
    ∃ pre, download_video url dir "best" subs thumb true env =
      pre ++ [Ev.complete] := by
  rw [download_video_transcode_eq url dir subs thumb env f h1 h2 h3 h4]
  unfold transcodeStep
  rw [if_neg (not_not_intro h5)]
  have hh : (runHooks none env.payloads).1.any isRunProc = false := by
    rw [List.any_eq_false]
    intro e he
    simp [(hookEv_props (runHooks_hookEvs env.payloads none e he)).2.2.1]
  constructor
  · simp [List.any_cons, List.any_append, isRunProc, hh]
  · exact ⟨Ev.log ("Starting download of " ++ url) ::
      (runHooks none env.payloads).1 ++ [Ev.sleep 2], by simp⟩

end YoutubeDownloader

namespace YoutubeDownloader

/-! Claims. -/

/-- C1: for every download request processed by `download_video` and
every behavior of the external downloader, probe and transcoder,
exactly one terminal outcome (`Ev.complete` via on_complete or
`Ev.error` via on_error) is notified; it is the very last event of the
worker trace, so it comes after every hook/progress/log event emitted
during the external download call and after the conditional transcode
actions, and no progress or log notification follows it. -/
theorem downloadVideo_exactly_one_terminal (url dir fmt : String)
    (subs thumb conv : Bool) (env : Env) :
    ∃ pre t, download_video url dir fmt subs thumb conv env = pre ++ [t] ∧
      isTerminal t = true ∧ ∀ e ∈ pre, isTerminal e = false :=
  download_video_endsTerminal url dir fmt subs thumb conv env

/-- C2 counterexample: on a `finished` payload the hook records the
file path and logs its base name, but the progress notification it
emits is tagged `processing` with no data — no `finished`-tagged
progress event (the Finished{filePath} of the spec) is ever emitted. -/
theorem finished_emits_processing_cex :
    progress_hook none [("status", "finished"), ("filename", "/tmp/out/clip.webm")] =
      Except.ok ([Ev.log "Download finished: clip.webm",
                  Ev.progress "processing" none], some "/tmp/out/clip.webm") ∧
    ([Ev.log "Download finished: clip.webm",
      Ev.progress "processing" none]).all (fun e => !(isFinishedProgress e)) = true :=
  ⟨rfl, rfl⟩

/-- C2 amended: on a payload whose status is `finished`, the hook
records the produced file path (`filename`, defaulting to `Unknown`),
emits a log line naming the file by base name only, and emits a
`processing` progress event carrying no data (not a Finished event). -/
theorem finished_records_and_logs (df : Option String) (d : Payload)
    (h : Payload.lookup d "status" = some "finished") :
    progress_hook df d =
      Except.ok ([Ev.log ("Download finished: " ++
          pyBasename (Payload.getD d "filename" "Unknown")),
        Ev.progress "processing" none], some (Payload.getD d "filename" "Unknown")) := by
  simp [progress_hook, h, Payload.getD]

theorem finished_records_and_logs_witness :
    progress_hook none [("status", "finished"), ("filename", "/a/b.webm")] =
      Except.ok ([Ev.log "Download finished: b.webm",
        Ev.progress "processing" none], some "/a/b.webm") :=
  finished_records_and_logs none [("status", "finished"), ("filename", "/a/b.webm")] rfl

/-- C3 counterexample: the hook raises `KeyError` on a payload with no
`status` key (the subscript of `d` at `status` is outside the inner `try`),
and through `ydl.download` that exception aborts the whole request,
which ends in a Failure notification — not in skipping one update. -/
theorem missing_status_raises_cex :
    progress_hook none ([] : Payload) = Except.error "KeyError: status" ∧
    download_video "u" "/out" "best" false false false
        ⟨[([] : Payload)], none, Except.ok "", FfmpegResult.ok⟩ =
      [Ev.log "Starting download of u", Ev.error "KeyError: status"] :=
  ⟨rfl, rfl⟩

/-- C3 amended: on every payload that carries a `status` key the hook
returns normally (never raises), and when the status is `downloading`
it emits a Downloading event with the literal `N/A` for each missing
percent/speed/ETA field; only a payload missing the `status` key
itself raises, and that aborts the request. -/
theorem status_present_never_raises (df : Option String) (d : Payload)
    (h : (Payload.lookup d "status").isSome = true) :
    (∃ r, progress_hook df d = Except.ok r) ∧
    (Payload.lookup d "status" = some "downloading" →
      progress_hook df d = Except.ok
        ([Ev.progress "downloading" (some ⟨Payload.getD d "_percent_str" "N/A",
            Payload.getD d "_speed_str" "N/A",
            Payload.getD d "_eta_str" "N/A"⟩)], df)) := by
  obtain ⟨st, hst⟩ := Option.isSome_iff_exists.mp h
  constructor
  · simp only [progress_hook, hst]
    split_ifs <;> exact ⟨_, rfl⟩
  · intro hd
    simp [progress_hook, hd]

theorem status_present_never_raises_witness :
    progress_hook none [("status", "downloading"), ("_speed_str", "1MiB/s")] =
      Except.ok ([Ev.progress "downloading" (some ⟨"N/A", "1MiB/s", "N/A"⟩)], none) :=
  (status_present_never_raises none
    [("status", "downloading"), ("_speed_str", "1MiB/s")] rfl).2 rfl

/-- C4: under the transcode-active conditions (download returned
without raising, format `best`, convert requested, a truthy finished
file `f` recorded whose extension is not already `.mp4`, probe
succeeded): a `SubprocessError` from the ffmpeg run (non-zero exit)
ends the trace with a Failure whose message embeds the captured
diagnostic, and nothing is deleted; an `OSError` (ffmpeg failed to
run) likewise ends with a Failure carrying the error text and nothing
is deleted; on success the original file is removed and a log line
names the new file by base name. -/
theorem transcode_failure_preserves_source (url dir : String)
    (subs thumb : Bool) (env : Env) (f out : String)
    (h1 : (runHooks none env.payloads).2.1 = none)
    (h2 : env.dlRaise = none)
    (h3 : (runHooks none env.payloads).2.2 = some f)
    (h4 : ¬f = "")
    (h5 : pyLower (pySplitext f).2 ≠ ".mp4")
    (h6 : env.probeResult = Except.ok out) :
    (∀ e, env.ffmpegResult = FfmpegResult.subprocErr e →
      (∃ pre, download_video url dir "best" subs thumb true env =
        pre ++ [Ev.error ("ffmpeg conversion failed: " ++ e)]) ∧
      (download_video url dir "best" subs thumb true env).any isRemoveFile = false) ∧
    (∀ e, env.ffmpegResult = FfmpegResult.osErr e →
      (∃ pre, download_video url dir "best" subs thumb true env =
        pre ++ [Ev.error e]) ∧
      (download_video url dir "best" subs thumb true env).any isRemoveFile = false) ∧
    (env.ffmpegResult = FfmpegResult.ok →
      Ev.removeFile f ∈ download_video url dir "best" subs thumb true env ∧
      Ev.log ("Converted to mp4: " ++ pyBasename ((pySplitext f).1 ++ ".mp4")) ∈
        download_video url dir "best" subs thumb true env) := by
  have htr := download_video_transcode_eq url dir subs thumb env f h1 h2 h3 h4
  have hh : (runHooks none env.payloads).1.any isRemoveFile = false := by
    rw [List.any_eq_false]
    intro e he
    simp [(hookEv_props (runHooks_hookEvs env.payloads none e he)).2.2.2]
  refine ⟨?_, ?_, ?_⟩
  · intro e hfr
    rw [htr]
    unfold transcodeStep
    rw [if_pos h5, h6, hfr]
    dsimp only
    constructor
    · exact ⟨Ev.log ("Starting download of " ++ url) ::
        (runHooks none env.payloads).1 ++
        [Ev.sleep 2, Ev.runProc (probeCmd f),
         Ev.runProc (if !(pyStrip out == "")
           then ffmpegVideoCmd f ((pySplitext f).1 ++ ".mp4")
           else ffmpegAudioCmd f ((pySplitext f).1 ++ ".mp4"))], by simp⟩
    · simp [List.any_cons, List.any_append, isRemoveFile, hh]
  · intro e hfr
    rw [htr]
    unfold transcodeStep
    rw [if_pos h5, h6, hfr]
    dsimp only
    constructor
    · exact ⟨Ev.log ("Starting download of " ++ url) ::
        (runHooks none env.payloads).1 ++
        [Ev.sleep 2, Ev.runProc (probeCmd f),
         Ev.runProc (if !(pyStrip out == "")
           then ffmpegVideoCmd f ((pySplitext f).1 ++ ".mp4")
           else ffmpegAudioCmd f ((pySplitext f).1 ++ ".mp4"))], by simp⟩
    · simp [List.any_cons, List.any_append, isRemoveFile, hh]
  · intro hfr
    rw [htr]
    unfold transcodeStep
    rw [if_pos h5, h6, hfr]
    dsimp only
    constructor <;> simp

theorem transcode_failure_preserves_source_witness :
    Ev.removeFile "/t/clip.webm" ∈
      download_video "u" "/out" "best" false false true
        ⟨[[("status", "finished"), ("filename", "/t/clip.webm")]], none,
          Except.ok "video", FfmpegResult.ok⟩ ∧
    Ev.log "Converted to mp4: clip.mp4" ∈
      download_video "u" "/out" "best" false false true
        ⟨[[("status", "finished"), ("filename", "/t/clip.webm")]], none,
          Except.ok "video", FfmpegResult.ok⟩ :=
  (transcode_failure_preserves_source "u" "/out" false false
    ⟨[[("status", "finished"), ("filename", "/t/clip.webm")]], none,
      Except.ok "video", FfmpegResult.ok⟩
    "/t/clip.webm" "video" rfl rfl rfl (by decide) (by decide) rfl).2.2 rfl

/-- C5: the conditional transcode step runs (the trace contains any of
its actions: the settling sleep, a subprocess run, a file removal) if
and only if the download call returned without raising (no hook
exception, no downloader exception), the format selection is `best`,
`convert_to_mp4` was requested, and a finished file was recorded (the
recorded path is truthy — a non-empty string); and when the recorded
file has an extension already lowercasing to `.mp4`, the step is skipped:
no subprocess is invoked and the trace still ends in Success. -/
theorem transcode_iff_conditions (url dir fmt : String)
    (subs thumb conv : Bool) (env : Env) :
    ((download_video url dir fmt subs thumb conv env).any isTranscodeEv = true ↔
      ((runHooks none env.payloads).2.1 = none ∧ env.dlRaise = none ∧
        fmt = "best" ∧ conv = true ∧
        pyTruthy (runHooks none env.payloads).2.2 = true)) ∧
    (∀ f, (runHooks none env.payloads).2.1 = none → env.dlRaise = none →
      (runHooks none env.payloads).2.2 = some f → ¬f = "" →
      pyLower (pySplitext f).2 = ".mp4" →
      (download_video url dir "best" subs thumb true env).any isRunProc = false ∧
      ∃ pre, download_video url dir "best" subs thumb true env =
        pre ++ [Ev.complete]) :=
  ⟨download_video_any_transcode url dir fmt subs thumb conv env,
   fun f h1 h2 h3 h4 h5 =>
     download_video_skip_mp4 url dir subs thumb env f h1 h2 h3 h4 h5⟩

theorem transcode_iff_conditions_witness :
    (download_video "u" "/out" "best" false false true
      ⟨[[("status", "finished"), ("filename", "/t/clip.mp4")]], none,
        Except.ok "", FfmpegResult.ok⟩).any isRunProc = false ∧
    ∃ pre, download_video "u" "/out" "best" false false true
        ⟨[[("status", "finished"), ("filename", "/t/clip.mp4")]], none,
          Except.ok "", FfmpegResult.ok⟩ = pre ++ [Ev.complete] :=
  (transcode_iff_conditions "u" "/out" "best" false false true
    ⟨[[("status", "finished"), ("filename", "/t/clip.mp4")]], none,
      Except.ok "", FfmpegResult.ok⟩).2
    "/t/clip.mp4" rfl rfl rfl (by decide) (by decide)

/-- C6: in the transcode step, when the stripped probe stdout is
non-empty (a video stream is reported) the built and invoked command
is the video-re-encode variant (libx264 at the ultrafast preset, audio
copied, mp4 output); when it is empty (no video stream) it is the
audio-only variant (`-vn`, audio copied, mp4 output). -/
theorem probe_selects_command_variant (url dir : String)
    (subs thumb : Bool) (env : Env) (f out : String)
    (h1 : (runHooks none env.payloads).2.1 = none)
    (h2 : env.dlRaise = none)
    (h3 : (runHooks none env.payloads).2.2 = some f)
    (h4 : ¬f = "")
    (h5 : pyLower (pySplitext f).2 ≠ ".mp4")
    (h6 : env.probeResult = Except.ok out) :
    (¬pyStrip out = "" →
      Ev.runProc (ffmpegVideoCmd f ((pySplitext f).1 ++ ".mp4")) ∈
        download_video url dir "best" subs thumb true env) ∧
    (pyStrip out = "" →
      Ev.runProc (ffmpegAudioCmd f ((pySplitext f).1 ++ ".mp4")) ∈
        download_video url dir "best" subs thumb true env) := by
  have htr := download_video_transcode_eq url dir subs thumb env f h1 h2 h3 h4
  constructor
  · intro hv
    rw [htr]
    unfold transcodeStep
    rw [if_pos h5, h6]
    dsimp only
    rw [if_pos (by simp [hv])]
    simp
  · intro hv
    rw [htr]
    unfold transcodeStep
    rw [if_pos h5, h6]
    dsimp only
    rw [if_neg (by simp [hv])]
    simp

theorem probe_selects_command_variant_witness :
    Ev.runProc (ffmpegVideoCmd "/t/a.webm" "/t/a.mp4") ∈
      download_video "u" "/out" "best" false false true
        ⟨[[("status", "finished"), ("filename", "/t/a.webm")]], none,
          Except.ok "video\n", FfmpegResult.ok⟩ ∧
    Ev.runProc (ffmpegAudioCmd "/t/a.webm" "/t/a.mp4") ∈
      download_video "u" "/out" "best" false false true
        ⟨[[("status", "finished"), ("filename", "/t/a.webm")]], none,
          Except.ok "  ", FfmpegResult.ok⟩ :=
  ⟨(probe_selects_command_variant "u" "/out" false false
      ⟨[[("status", "finished"), ("filename", "/t/a.webm")]], none,
        Except.ok "video\n", FfmpegResult.ok⟩
      "/t/a.webm" "video\n" rfl rfl rfl (by decide) (by decide) rfl).1 (by decide),
   (probe_selects_command_variant "u" "/out" false false
      ⟨[[("status", "finished"), ("filename", "/t/a.webm")]], none,
        Except.ok "  ", FfmpegResult.ok⟩
      "/t/a.webm" "  " rfl rfl rfl (by decide) (by decide) rfl).2 (by decide)⟩

/-- C7: the downloader option set derived from each of the four format
selections matches the specified table exactly: `mp3` is best-audio
with an mp3 audio-extraction post-process at quality 192; `mp4` and
`webm` are the container-constrained fallback chains; `best` leaves
the format unconstrained (and none of the latter three adds a
post-processor). -/
theorem format_selection_option_table (dir : String) (s t : Bool) :
    ((buildYdlOpts dir "mp3" s t).format = some "bestaudio/best" ∧
      (buildYdlOpts dir "mp3" s false).postprocessors =
        [[("key", "FFmpegExtractAudio"), ("preferredcodec", "mp3"),
          ("preferredquality", "192")]]) ∧
    ((buildYdlOpts dir "mp4" s t).format =
        some "bestvideo[ext=mp4]+bestaudio[ext=m4a]/best[ext=mp4]/best" ∧
      (buildYdlOpts dir "mp4" s false).postprocessors = []) ∧
    ((buildYdlOpts dir "webm" s t).format =
        some "bestvideo[ext=webm]+bestaudio[ext=webm]/best[ext=webm]/best" ∧
      (buildYdlOpts dir "webm" s false).postprocessors = []) ∧
    ((buildYdlOpts dir "best" s t).format = none ∧
      (buildYdlOpts dir "best" s false).postprocessors = []) := by
  cases s <;> cases t <;> simp [buildYdlOpts, audioExtractPP]

/-- C8: enabling `with_thumbnail` appends the thumbnail-conversion
post-processor to whatever post-process list already exists, so for an
mp3 request with thumbnail the list is audio-extraction followed by
thumbnail-conversion — both present, never the reverse order. -/
theorem thumbnail_postprocessor_appended_last (dir fmt : String) (s : Bool) :
    (buildYdlOpts dir fmt s true).postprocessors =
      (buildYdlOpts dir fmt s false).postprocessors ++ [thumbnailConvertPP] ∧
    (buildYdlOpts dir "mp3" s true).postprocessors =
      [audioExtractPP, thumbnailConvertPP] := by
  constructor
  · by_cases h3 : fmt = "mp3" <;> by_cases h4 : fmt = "mp4" <;>
      by_cases h5 : fmt = "webm" <;> cases s <;>
      simp [buildYdlOpts, h3, h4, h5]
  · cases s <;> simp [buildYdlOpts]

/-- C9: the log-callback adapter suppresses debug-level lines carrying
the `[debug] ` marker, forwards unmarked debug lines exactly as info
does, and forwards warning and error lines prefixed with `Warning: `
and `Error: ` respectively. -/
theorem logger_adapter_behavior (msg : String) :
    (pyStartsWith msg "[debug] " = true → CustomLogger.debug msg = []) ∧
    (pyStartsWith msg "[debug] " = false →
      CustomLogger.debug msg = CustomLogger.info msg) ∧
    CustomLogger.info msg = [Ev.log msg] ∧
    CustomLogger.warning msg = [Ev.log ("Warning: " ++ msg)] ∧
    CustomLogger.error msg = [Ev.log ("Error: " ++ msg)] := by
  refine ⟨?_, ?_, rfl, rfl, rfl⟩ <;> intro h <;> simp [CustomLogger.debug, h]

theorem logger_adapter_behavior_witness :
    CustomLogger.debug "[debug] Loaded extractors" = [] ∧
    CustomLogger.debug "Extracting URL" = [Ev.log "Extracting URL"] ∧
    CustomLogger.warning "slow" = [Ev.log "Warning: slow"] ∧
    CustomLogger.error "bad" = [Ev.log "Error: bad"] :=
  ⟨(logger_adapter_behavior "[debug] Loaded extractors").1 (by decide),
   ((logger_adapter_behavior "Extracting URL").2.1 (by decide)).trans
     (logger_adapter_behavior "Extracting URL").2.2.1,
   (logger_adapter_behavior "slow").2.2.2.1,
   (logger_adapter_behavior "bad").2.2.2.2⟩

/-- C10: every download the GUI start_download action initiates
passes five positional arguments, so `convert_to_mp4` takes its
default False, and the resulting worker trace never contains any
transcode action (no sleep, no subprocess, no file removal), for every
format selection, recorded file and external behavior. -/
theorem gui_start_download_never_transcodes (st : GuiState)
    (args : DownloadArgs) (h : YtDlpGui.start_download st = some args) :
    args.convert_to_mp4 = false ∧
    ∀ env : Env,
      (download_video args.url args.output_dir args.selected_format
        args.with_subtitles args.with_thumbnail args.convert_to_mp4
        env).any isTranscodeEv = false := by
  unfold YtDlpGui.start_download at h
  dsimp only at h
  split_ifs at h with hu
  rw [Option.some.injEq] at h
  subst h
  refine ⟨rfl, ?_⟩
  intro env
  by_contra hx
  rw [Bool.not_eq_false] at hx
  obtain ⟨-, -, -, hconv, -⟩ :=
    (download_video_any_transcode _ _ _ _ _ _ env).mp hx
  exact Bool.false_ne_true hconv

theorem gui_start_download_never_transcodes_witness :
    (download_video "u" "/o" "best" false false false
      ⟨[[("status", "finished"), ("filename", "/t/c.webm")]], none,
        Except.ok "video", FfmpegResult.ok⟩).any isTranscodeEv = false :=
  (gui_start_download_never_transcodes ⟨"u", "/o", "best", false, false⟩
    ⟨"u", "/o", "best", false, false, false⟩ rfl).2
    ⟨[[("status", "finished"), ("filename", "/t/c.webm")]], none,
      Except.ok "video", FfmpegResult.ok⟩

end YoutubeDownloader
